import Mathlib

/-!
Verification of the post-engagement controller
(`backend/controllers/post.controller.js`) of the LinkedIn-Clone repository.

The controller is shallowly embedded as pure Lean functions over an explicit
database state.  MongoDB object ids are modelled as `Nat`; the Mongoose
collections behind `Post.find/findById/findByIdAndUpdate/findByIdAndDelete`,
`Notification`, the registered users (the target of `populate`) and the
Cloudinary asset store are fields of a `DB` record.  External I/O that can
succeed or fail (the sentiment HTTP call, the Cloudinary upload/destroy, the
`Notification.save()`) is passed in as an explicit outcome parameter, so each
handler is a total function from a state and an oracle of outcomes to an HTTP
outcome and a new state.  JavaScript slips in the source (a strict inequality
between a string and a function object, an arrow function whose block body
never returns, an undeclared identifier in a catch block) are embedded
faithfully, with the relevant JS evaluation rules made explicit.
-/

/-- A comment embedded in a post.  The controller pushes exactly
`{ user: req.user._id, content }` (`createComment`); the schema-assigned
timestamp is not touched by the controller and is omitted. -/
structure Comment where
  user : Nat
  content : String
  deriving Repr, DecidableEq

/-- A post document as used by the controller: `author`, `content`, optional
`image` URL, optional `sentiment` payload, the `likes` array of user ids, the
embedded `comments` array and the `createdAt` timestamp the feeds sort by.
The schema itself (`models/post.model.js`) is not part of the analysed
source; the fields are the ones the controller reads and writes, as listed in
the data model of the design document. -/
structure Post where
  id : Nat
  author : Nat
  content : String
  image : Option String
  sentiment : Option String
  likes : List Nat
  comments : List Comment
  createdAt : Nat
  deriving Repr, DecidableEq

/-- A notification record, with the four fields the controller sets:
`recipient`, `type` (`"comment"` or `"like"`), `relatedUser`, `relatedPost`. -/
structure Notification where
  recipient : Nat
  type : String
  relatedUser : Nat
  relatedPost : Nat
  deriving Repr, DecidableEq

/-- The persistent state the controller acts on: the post collection, the set
of registered user ids (a `populate`d reference resolves exactly when the id
is in `users`), the notification collection, and the Cloudinary asset store
as a list of public asset ids. -/
structure DB where
  posts : List Post
  users : List Nat
  notifications : List Notification
  assets : List String
  deriving Repr, DecidableEq

/-- Response body of a handler: a single post, a list of posts, JSON `null`
(what `res.json(post)` sends when `post` is `null`), or a `{ message: ... }`
object. -/
inductive Body where
  | jsonPost (p : Post)
  | jsonPosts (ps : List Post)
  | jsonNull
  | jsonMessage (m : String)
  deriving Repr, DecidableEq

/-- What the HTTP client observes: either a response with a status code and a
body, or no response at all — the latter happens when the handler throws
outside every try, or when the catch block itself throws before reaching its
`res.status(...)` line. -/
inductive HttpOutcome where
  | response (status : Nat) (body : Body)
  | noResponse (reason : String)
  deriving Repr, DecidableEq

/-- `Post.findById(pid)` / the lookup part of `findByIdAndUpdate`:
`some post` when a post with this id exists, otherwise `none` (Mongoose
resolves with `null`). -/
def findPost (ps : List Post) (pid : Nat) : Option Post :=
  ps.find? (fun p => p.id == pid)

/-- Persisting an updated document (`post.save()` / the update part of
`findByIdAndUpdate`): replace the post with the same id. -/
def setPost (ps : List Post) (p : Post) : List Post :=
  ps.map (fun q => if q.id == p.id then p else q)

/-- `Post.findByIdAndDelete(pid)`: drop the post with this id. -/
def removePostById (ps : List Post) (pid : Nat) : List Post :=
  ps.filter (fun q => q.id != pid)

/-- Resolution of a `populate`d user reference: the referenced user document,
or `none` when the reference no longer resolves (Mongoose puts `null` in the
populated field). -/
def resolveUser (users : List Nat) (uid : Nat) : Option Nat :=
  if users.contains uid then some uid else none

/-- Comparison of two ObjectIds by `a.toString() !== b.toString()` (with both
calls actually made, as in `deletePost` and `createComment`): the string
forms are equal exactly when the ids are equal. -/
def objIdNeq (a b : Nat) : Bool :=
  a != b

/-- A JS runtime value as far as the embedded strict comparisons need:
a string, or a function object. -/
inductive JsVal where
  | str (s : String)
  | fn (name : String)
  deriving Repr, DecidableEq

/-- JS strict inequality `!==`: two strings are compared by contents; operands
of different runtime types are never strictly equal, so `!==` is `true`. -/
def jsStrictNeq : JsVal → JsVal → Bool
  | .str a, .str b => a != b
  | .str _, .fn _ => true
  | .fn _, .str _ => true
  | .fn a, .fn b => a != b

/-- The guard of the notification branch of `likePost`:
`post.author.toString() !== userId.toString` — the second `toString` is not
called (the parentheses are missing), so the comparison is between the
author-id string and the `toString` function object and is always `true`. -/
def likeNotifCond (author userId : Nat) : Bool :=
  jsStrictNeq (JsVal.str (toString author)) (JsVal.fn "toString")

/-- Return value of a JS callback: an actual boolean, or `undefined` when the
function body finishes without a `return`. -/
inductive JsRet where
  | undef
  | boolean (b : Bool)
  deriving Repr, DecidableEq

/-- Truthiness, as `Array.prototype.filter` applies it to the callback
result: `undefined` is falsy. -/
def jsTruthy : JsRet → Bool
  | .undef => false
  | .boolean b => b

/-- The unlike callback `id => { id.toString() !== userId.toString() }` of
`likePost`: its body is a block containing a single expression statement and
no `return`, so the comparison is evaluated and discarded and the callback
returns `undefined` for every element. -/
def unlikeCallback (userId id : Nat) : JsRet :=
  let _ := jsStrictNeq (JsVal.str (toString id)) (JsVal.str (toString userId))
  JsRet.undef

/-- `likePost` (`POST /posts/:id/like`).  `notifSaveOk` is the outcome of
`newNotification.save()` when that line is reached.  Control flow of the
source: load the post (a missing post makes `post.likes` throw, caught and
answered with 500); if the actor is in `likes`, reassign `likes` to the
result of the no-return filter callback (which keeps nothing); otherwise push
the actor and, under the always-true guard `likeNotifCond`, save a `like`
notification before `post.save()`; a rejected notification save reaches the
catch before `post.save()`, so the likes change is not persisted. -/
def likePost (db : DB) (postId userId : Nat) (notifSaveOk : Bool) :
    HttpOutcome × DB :=
  match findPost db.posts postId with
  | none =>
      (HttpOutcome.response 500 (Body.jsonMessage "Server error"), db)
  | some post =>
      if post.likes.contains userId then
        let post1 := { post with
          likes := post.likes.filter (fun id => jsTruthy (unlikeCallback userId id)) }
        (HttpOutcome.response 200 (Body.jsonPost post1),
         { db with posts := setPost db.posts post1 })
      else
        let post1 := { post with likes := post.likes ++ [userId] }
        if likeNotifCond post.author userId then
          if notifSaveOk then
            (HttpOutcome.response 200 (Body.jsonPost post1),
             { db with
                posts := setPost db.posts post1,
                notifications := db.notifications ++
                  [{ recipient := post.author, type := "like",
                     relatedUser := userId, relatedPost := postId }] })
          else
            (HttpOutcome.response 500 (Body.jsonMessage "Server error"), db)
        else
          (HttpOutcome.response 200 (Body.jsonPost post1),
           { db with posts := setPost db.posts post1 })

/-- The inner `try { ... axios.post(SENTIMENT_ANALYSIS_URL, {text}) ... }
catch { ... }` of `createPost`: a resolved call assigns its data to
`sentimentResult`; any rejection — transport error, timeout, non-2xx status,
or `SENTIMENT_ANALYSIS_URL` being unset so that `axios.post(undefined, ...)`
rejects — is caught, logged, and leaves `sentimentResult` at `null`. -/
def trySentiment (call : Except Unit String) : Option String :=
  match call with
  | .ok data => some data
  | .error _ => none

/-- JS `String.prototype.split` with a one-character separator (the source
only splits on `"/"` and `"."`), over the character list of the string: an
empty string gives one empty segment, and each occurrence of the separator
starts a new segment. -/
def splitOnChar (sep : Char) : List Char → List (List Char)
  | [] => [[]]
  | c :: rest =>
    if c = sep then [] :: splitOnChar sep rest
    else
      match splitOnChar sep rest with
      | [] => [[c]]
      | seg :: segs => (c :: seg) :: segs

/-- The public-id extraction of `deletePost`:
`post.image.split("/").pop().split(".")[0]` — the last `/`-segment of the
URL, up to its first `.`. -/
def extractPublicId (url : String) : String :=
  String.mk (((splitOnChar '/' url.data).getLastD []
    |> splitOnChar '.').headD [])

/-- `createPost` (`POST /posts`).  `sentimentCall` is the outcome of the
axios call to the sentiment service, `uploadCall` the outcome of
`cloudinary.uploader.upload(image)` (its `secure_url` on success), `newId`
and `now` the id and `createdAt` the store assigns.  Sentiment failure is
swallowed by the inner try/catch; an upload rejection propagates to the outer
catch, so nothing is saved and the response is 500; otherwise the new post is
saved and returned with 201. -/
def createPost (db : DB) (userId : Nat) (content : String)
    (image : Option String) (sentimentCall : Except Unit String)
    (uploadCall : Except Unit String) (newId now : Nat) : HttpOutcome × DB :=
  let sentimentResult := trySentiment sentimentCall
  match image with
  | some _ =>
      match uploadCall with
      | .error _ =>
          (HttpOutcome.response 500 (Body.jsonMessage "Server error"), db)
      | .ok secureUrl =>
          let newPost : Post :=
            { id := newId, author := userId, content := content,
              image := some secureUrl, sentiment := sentimentResult,
              likes := [], comments := [], createdAt := now }
          (HttpOutcome.response 201 (Body.jsonPost newPost),
           { db with posts := db.posts ++ [newPost],
                     assets := db.assets ++ [extractPublicId secureUrl] })
  | none =>
      let newPost : Post :=
        { id := newId, author := userId, content := content,
          image := none, sentiment := sentimentResult,
          likes := [], comments := [], createdAt := now }
      (HttpOutcome.response 201 (Body.jsonPost newPost),
       { db with posts := db.posts ++ [newPost] })

/-- `deletePost` (`DELETE /posts/:id`).  `destroyOk` is the outcome of
`cloudinary.uploader.destroy` when that line is reached.  Control flow of the
source: 404 when the post is absent; 403 when the actor's id string differs
from the author's; when the post has an image, `destroy` is awaited with no
inner try/catch, so a rejection propagates to the outer catch (500) before
`Post.findByIdAndDelete` runs; otherwise the asset (on success) and the post
record are removed and 200 is returned. -/
def deletePost (db : DB) (postId userId : Nat) (destroyOk : Bool) :
    HttpOutcome × DB :=
  match findPost db.posts postId with
  | none =>
      (HttpOutcome.response 404 (Body.jsonMessage "Post not found"), db)
  | some post =>
      if objIdNeq post.author userId then
        (HttpOutcome.response 403
           (Body.jsonMessage "You are not authorized to delete this post"), db)
      else
        match post.image with
        | some url =>
            if destroyOk then
              (HttpOutcome.response 200 (Body.jsonMessage "Post deleted successfully"),
               { db with
                  posts := removePostById db.posts postId,
                  assets := db.assets.filter (fun a => a != extractPublicId url) })
            else
              (HttpOutcome.response 500 (Body.jsonMessage "Server error"), db)
        | none =>
            (HttpOutcome.response 200 (Body.jsonMessage "Post deleted successfully"),
             { db with posts := removePostById db.posts postId })

/-- `getPostById` (`GET /posts/:id`).  The source has no null check:
`findById` resolves with the populated post, or with `null` for an absent id,
and either value is passed to `res.status(200).json(...)` unchanged. -/
def getPostById (db : DB) (postId : Nat) : HttpOutcome :=
  match findPost db.posts postId with
  | some post => HttpOutcome.response 200 (Body.jsonPost post)
  | none => HttpOutcome.response 200 Body.jsonNull

/-- `createComment` (`POST /posts/:id/comments`).  `notifSaveOk` is the
outcome of `newNotification.save()` when reached, `emailOk` the outcome of
`sendCommentNotificationEmail` (its failure is caught by the inner try/catch
and only logged, so it never influences the result).  Control flow of the
source: `findByIdAndUpdate` atomically pushes `{user, content}` and resolves
with the updated populated post, or with `null` for an absent id.  On `null`,
`post.author._id` throws; the catch block then evaluates the undeclared
identifier `errors`, which raises a `ReferenceError` before
`res.status(500)` runs, so no response is sent.  The same catch path is taken
when the author reference does not resolve (populated `author` is `null`) and
when the notification save rejects — in all three cases the already-committed
comment append (if any) stays in the store.  When the commenting actor is the
author, the notification branch is skipped and the post is returned. -/
def createComment (db : DB) (postId userId : Nat) (content : String)
    (notifSaveOk emailOk : Bool) : HttpOutcome × DB :=
  match findPost db.posts postId with
  | none =>
      (HttpOutcome.noResponse "TypeError on null post, then ReferenceError in catch",
       db)
  | some post =>
      let post1 := { post with comments := post.comments ++ [{ user := userId, content := content }] }
      let db1 := { db with posts := setPost db.posts post1 }
      match resolveUser db.users post1.author with
      | none =>
          (HttpOutcome.noResponse "TypeError on null author, then ReferenceError in catch",
           db1)
      | some authorId =>
          if objIdNeq authorId userId then
            if notifSaveOk then
              let db2 := { db1 with
                notifications := db1.notifications ++
                  [{ recipient := authorId, type := "comment",
                     relatedUser := userId, relatedPost := postId }] }
              let _ := emailOk
              (HttpOutcome.response 200 (Body.jsonPost post1), db2)
            else
              (HttpOutcome.noResponse "rejected notification save, then ReferenceError in catch",
               db1)
          else
            (HttpOutcome.response 200 (Body.jsonPost post1), db1)

/-- Insertion of a post into a list already sorted by `createdAt` descending,
keeping earlier elements first on ties. -/
def insertDesc (p : Post) : List Post → List Post
  | [] => [p]
  | q :: qs => if p.createdAt ≤ q.createdAt then q :: insertDesc p qs
               else p :: q :: qs

/-- The `.sort({ createdAt: -1 })` stage of the feed queries: sort by
`createdAt` descending. -/
def sortByCreatedAtDesc : List Post → List Post
  | [] => []
  | p :: ps => insertDesc p (sortByCreatedAtDesc ps)

/-- The shared pipeline of the three feed handlers, applied to the posts a
`find` returned: populate and sort, then
`posts.filter(post => post.author !== null)` — a post whose populated author
is `null` (the reference does not resolve) is dropped. -/
def feedPipeline (db : DB) (found : List Post) : List Post :=
  (sortByCreatedAtDesc found).filter
    (fun p => (resolveUser db.users p.author).isSome)

/-- `getPublicPosts` (`GET /posts`): every post, populated, sorted by
`createdAt` descending, unresolved authors filtered out. -/
def getPublicPosts (db : DB) : HttpOutcome :=
  HttpOutcome.response 200 (Body.jsonPosts (feedPipeline db db.posts))

/-- `getPersonalizedExploreFeed` (`GET /posts/explore`): identical query to
`getPublicPosts` (no personalization in the source). -/
def getPersonalizedExploreFeed (db : DB) : HttpOutcome :=
  HttpOutcome.response 200 (Body.jsonPosts (feedPipeline db db.posts))

/-- `getNetworkPosts` (`GET /posts/network`): restricted by
`find({author: {$in: [...req.user.connections, req.user._id]}})` to the
actor's connections plus the actor, then the shared pipeline. -/
def getNetworkPosts (db : DB) (userId : Nat) (connections : List Nat) :
    HttpOutcome :=
  let found := db.posts.filter
    (fun p => (connections ++ [userId]).contains p.author)
  HttpOutcome.response 200 (Body.jsonPosts (feedPipeline db found))

/-- The posts carried by a feed response. -/
def bodyPosts : HttpOutcome → List Post
  | .response _ (Body.jsonPosts ps) => ps
  | _ => []

/-- C1: the claim fails on the code.  First conjunct: on a post whose `likes`
already holds user 7, user 5 (not the author) toggles twice; the second
toggle's filter callback returns `undefined` for every element, so `likes`
ends as `[]`, not the original `[7]`.  Second conjunct: the author (user 10)
toggles a like on their own post once, and — because the guard compares a
string with the uncalled `toString` function and is therefore always true —
a `like` notification with `relatedUser = recipient` is written. -/
theorem likePost_double_toggle_code_bug :
    ((likePost (likePost
        { posts := [{ id := 0, author := 10, content := "hello", image := none,
                      sentiment := none, likes := [7], comments := [],
                      createdAt := 0 }],
          users := [10, 7, 5], notifications := [], assets := [] }
        0 5 true).2 0 5 true).2.posts.map Post.likes = [[]]) ∧
    ((likePost
        { posts := [{ id := 0, author := 10, content := "hello", image := none,
                      sentiment := none, likes := [], comments := [],
                      createdAt := 0 }],
          users := [10], notifications := [], assets := [] }
        0 10 true).2.notifications =
      [{ recipient := 10, type := "like", relatedUser := 10, relatedPost := 0 }]) :=
  ⟨rfl, rfl⟩

/-- C2: the claim fails on the code.  The author (user 10) likes their own
post; the guard `post.author.toString() !== userId.toString` omits the call
parentheses, compares a string with a function object and is always true, so
a notification whose `relatedUser` equals its `recipient` is created. -/
theorem likePost_self_like_creates_notification :
    (likePost
        { posts := [{ id := 0, author := 10, content := "hello", image := none,
                      sentiment := none, likes := [], comments := [],
                      createdAt := 0 }],
          users := [10], notifications := [], assets := [] }
        0 10 true).2.notifications =
      [{ recipient := 10, type := "like", relatedUser := 10, relatedPost := 0 }] :=
  rfl

/-- C4: the claim fails on the code.  A comment request naming an absent post
id does not produce a 404: `findByIdAndUpdate` resolves with `null`,
`post.author._id` throws, and the catch block itself throws a
`ReferenceError` on the undeclared identifier `errors` before its
`res.status(500)` line, so no response is sent at all (the store is
unchanged: no comment is appended). -/
theorem createComment_absent_post_code_bug :
    createComment { posts := [], users := [5], notifications := [], assets := [] }
        999 5 "hi" true true =
      (HttpOutcome.noResponse "TypeError on null post, then ReferenceError in catch",
       { posts := [], users := [5], notifications := [], assets := [] }) :=
  rfl

/-- C10: the appended comment is committed before the notification write and
is not rolled back when that write fails — but the claimed server-error
response is not sent: the catch block throws a `ReferenceError` on the
undeclared identifier `errors` before `res.status(500)`.  User 5 comments on
user 10's post, the notification save rejects; the comment is persisted and
the outcome is no response. -/
theorem createComment_notif_failure_no_rollback :
    createComment
        { posts := [{ id := 0, author := 10, content := "x", image := none,
                      sentiment := none, likes := [], comments := [],
                      createdAt := 0 }],
          users := [10, 5], notifications := [], assets := [] }
        0 5 "nice" false true =
      (HttpOutcome.noResponse "rejected notification save, then ReferenceError in catch",
       { posts := [{ id := 0, author := 10, content := "x", image := none,
                     sentiment := none, likes := [],
                     comments := [{ user := 5, content := "nice" }],
                     createdAt := 0 }],
          users := [10, 5], notifications := [], assets := [] }) :=
  rfl

/-- C5 counterexample: `getPostById` on a store with no post 7 responds with
status 200 and a `null` body — a success response carrying no post, where the
claim requires a NotFound outcome. -/
theorem getPostById_missing_cex :
    getPostById { posts := [], users := [], notifications := [], assets := [] } 7 =
      HttpOutcome.response 200 Body.jsonNull :=
  rfl

/-- C5 (amended): for every id, `getPostById` responds 200 with the populated
post when a post with that id exists, and 200 with a `null` body when it does
not; there is no NotFound outcome. -/
theorem getPostById_contract_amended (db : DB) (pid : Nat) :
    (findPost db.posts pid = none →
      getPostById db pid = HttpOutcome.response 200 Body.jsonNull) ∧
    (∀ p, findPost db.posts pid = some p →
      getPostById db pid = HttpOutcome.response 200 (Body.jsonPost p)) := by
  constructor
  · intro h
    simp [getPostById, h]
  · intro p h
    simp [getPostById, h]

/-- Witness for the amended C5: both branches at concrete inputs. -/
theorem getPostById_contract_amended_witness :
    getPostById { posts := [], users := [], notifications := [], assets := [] } 3 =
      HttpOutcome.response 200 Body.jsonNull ∧
    getPostById
        { posts := [{ id := 3, author := 1, content := "x", image := none,
                      sentiment := none, likes := [], comments := [],
                      createdAt := 0 }],
          users := [1], notifications := [], assets := [] } 3 =
      HttpOutcome.response 200 (Body.jsonPost
        { id := 3, author := 1, content := "x", image := none, sentiment := none,
          likes := [], comments := [], createdAt := 0 }) :=
  ⟨(getPostById_contract_amended
      { posts := [], users := [], notifications := [], assets := [] } 3).1 rfl,
   (getPostById_contract_amended
      { posts := [{ id := 3, author := 1, content := "x", image := none,
                    sentiment := none, likes := [], comments := [],
                    createdAt := 0 }],
        users := [1], notifications := [], assets := [] } 3).2 _ rfl⟩

/-- C3 counterexample: user 5 deletes their own post 0, which has an image;
the Cloudinary destroy rejects, and — destroy being awaited with no inner
try/catch — the handler answers 500 and the post record is NOT removed,
where the claim requires success with the record removed. -/
theorem deletePost_asset_failure_cex :
    deletePost
        { posts := [{ id := 0, author := 5, content := "x",
                      image := some "https://res.cloudinary.com/demo/pic.png",
                      sentiment := none, likes := [], comments := [],
                      createdAt := 0 }],
          users := [5], notifications := [], assets := ["pic"] }
        0 5 false =
      (HttpOutcome.response 500 (Body.jsonMessage "Server error"),
       { posts := [{ id := 0, author := 5, content := "x",
                     image := some "https://res.cloudinary.com/demo/pic.png",
                     sentiment := none, likes := [], comments := [],
                     createdAt := 0 }],
         users := [5], notifications := [], assets := ["pic"] }) :=
  rfl

/-- C3 (amended): for every post owned by the requesting actor that has an
image, the Delete Post workflow removes the post record and responds with
success only when the asset-store deletion succeeds; when the asset-store
deletion fails, the failure propagates — the response is a server error and
the post record is not removed. -/
theorem deletePost_asset_failure_amended (db : DB) (postId userId : Nat)
    (p : Post) (url : String)
    (hfind : findPost db.posts postId = some p)
    (hauth : p.author = userId) (himg : p.image = some url) :
    deletePost db postId userId false =
      (HttpOutcome.response 500 (Body.jsonMessage "Server error"), db) ∧
    deletePost db postId userId true =
      (HttpOutcome.response 200 (Body.jsonMessage "Post deleted successfully"),
       { db with posts := removePostById db.posts postId,
                 assets := db.assets.filter
                   (fun a => a != extractPublicId url) }) := by
  unfold deletePost
  rw [hfind]
  simp [objIdNeq, hauth, himg]

/-- Witness for the amended C3 at a concrete state. -/
theorem deletePost_asset_failure_amended_witness :
    deletePost
        { posts := [{ id := 0, author := 5, content := "x",
                      image := some "https://res.cloudinary.com/demo/pic.png",
                      sentiment := none, likes := [], comments := [],
                      createdAt := 0 }],
          users := [5], notifications := [], assets := ["pic"] }
        0 5 false =
      (HttpOutcome.response 500 (Body.jsonMessage "Server error"),
       { posts := [{ id := 0, author := 5, content := "x",
                     image := some "https://res.cloudinary.com/demo/pic.png",
                     sentiment := none, likes := [], comments := [],
                     createdAt := 0 }],
         users := [5], notifications := [], assets := ["pic"] }) ∧
    deletePost
        { posts := [{ id := 0, author := 5, content := "x",
                      image := some "https://res.cloudinary.com/demo/pic.png",
                      sentiment := none, likes := [], comments := [],
                      createdAt := 0 }],
          users := [5], notifications := [], assets := ["pic"] }
        0 5 true =
      (HttpOutcome.response 200 (Body.jsonMessage "Post deleted successfully"),
       { posts := [], users := [5], notifications := [], assets := [] }) := by
  have h := deletePost_asset_failure_amended
    { posts := [{ id := 0, author := 5, content := "x",
                  image := some "https://res.cloudinary.com/demo/pic.png",
                  sentiment := none, likes := [], comments := [],
                  createdAt := 0 }],
      users := [5], notifications := [], assets := ["pic"] }
    0 5
    { id := 0, author := 5, content := "x",
      image := some "https://res.cloudinary.com/demo/pic.png",
      sentiment := none, likes := [], comments := [], createdAt := 0 }
    "https://res.cloudinary.com/demo/pic.png" rfl rfl rfl
  exact ⟨h.1, h.2.trans (by decide)⟩

/-- C6: a Create Post request carrying an image whose upload fails creates no
post record and answers with a server error; the upload is awaited before
`newPost.save()`, so the store is entirely unchanged. -/
theorem createPost_upload_failure_atomic (db : DB) (userId : Nat)
    (content img : String) (sentimentCall : Except Unit String)
    (newId now : Nat) :
    createPost db userId content (some img) sentimentCall (Except.error ())
        newId now =
      (HttpOutcome.response 500 (Body.jsonMessage "Server error"), db) :=
  rfl

/-- C7: when the sentiment call fails (transport error, timeout, non-2xx, or
absent configuration — all of which reject the awaited axios call), post
creation still succeeds with status 201 and the created post's `sentiment`
is absent, both without an image and with an image whose upload succeeds. -/
theorem createPost_sentiment_failure_swallowed (db : DB) (userId : Nat)
    (content img secureUrl : String) (uploadCall : Except Unit String)
    (newId now : Nat) :
    (createPost db userId content none (Except.error ()) uploadCall newId now =
      (HttpOutcome.response 201 (Body.jsonPost
         { id := newId, author := userId, content := content, image := none,
           sentiment := none, likes := [], comments := [], createdAt := now }),
       { db with posts := db.posts ++
           [{ id := newId, author := userId, content := content, image := none,
              sentiment := none, likes := [], comments := [],
              createdAt := now }] })) ∧
    (createPost db userId content (some img) (Except.error ())
        (Except.ok secureUrl) newId now =
      (HttpOutcome.response 201 (Body.jsonPost
         { id := newId, author := userId, content := content,
           image := some secureUrl, sentiment := none, likes := [],
           comments := [], createdAt := now }),
       { db with
          posts := db.posts ++
            [{ id := newId, author := userId, content := content,
               image := some secureUrl, sentiment := none, likes := [],
               comments := [], createdAt := now }],
          assets := db.assets ++ [extractPublicId secureUrl] })) :=
  ⟨rfl, rfl⟩

/-- C8: a Delete Post request by an actor who is not the author answers 403
and leaves the whole state unchanged — post record, assets and notifications
— whatever the asset-store would have done: the authorization check precedes
both deletions. -/
theorem deletePost_forbidden_frame (db : DB) (postId userId : Nat)
    (destroyOk : Bool) (p : Post)
    (hfind : findPost db.posts postId = some p)
    (hauth : p.author ≠ userId) :
    deletePost db postId userId destroyOk =
      (HttpOutcome.response 403
        (Body.jsonMessage "You are not authorized to delete this post"), db) := by
  unfold deletePost
  rw [hfind]
  simp [objIdNeq, bne_iff_ne, hauth]

/-- Witness for C8: user 6 attempts to delete user 5's post 0. -/
theorem deletePost_forbidden_frame_witness :
    deletePost
        { posts := [{ id := 0, author := 5, content := "x",
                      image := some "https://res.cloudinary.com/demo/pic.png",
                      sentiment := none, likes := [], comments := [],
                      createdAt := 0 }],
          users := [5, 6], notifications := [], assets := ["pic"] }
        0 6 true =
      (HttpOutcome.response 403
        (Body.jsonMessage "You are not authorized to delete this post"),
       { posts := [{ id := 0, author := 5, content := "x",
                     image := some "https://res.cloudinary.com/demo/pic.png",
                     sentiment := none, likes := [], comments := [],
                     createdAt := 0 }],
         users := [5, 6], notifications := [], assets := ["pic"] }) :=
  deletePost_forbidden_frame
    { posts := [{ id := 0, author := 5, content := "x",
                  image := some "https://res.cloudinary.com/demo/pic.png",
                  sentiment := none, likes := [], comments := [],
                  createdAt := 0 }],
      users := [5, 6], notifications := [], assets := ["pic"] }
    0 6 true
    { id := 0, author := 5, content := "x",
      image := some "https://res.cloudinary.com/demo/pic.png",
      sentiment := none, likes := [], comments := [], createdAt := 0 }
    rfl (by decide)

/-- Membership is preserved by `insertDesc`. -/
theorem mem_insertDesc {p q : Post} {l : List Post} :
    p ∈ insertDesc q l ↔ p = q ∨ p ∈ l := by
  induction l with
  | nil => simp [insertDesc]
  | cons r rs ih =>
      unfold insertDesc
      split <;> simp [ih] <;> tauto

/-- Sorting by `createdAt` descending neither adds nor removes posts. -/
theorem mem_sortByCreatedAtDesc {p : Post} {l : List Post} :
    p ∈ sortByCreatedAtDesc l ↔ p ∈ l := by
  induction l with
  | nil => simp [sortByCreatedAtDesc]
  | cons q qs ih => simp [sortByCreatedAtDesc, mem_insertDesc, ih]

/-- C9: a post whose author reference does not resolve is excluded from the
result of every feed-listing variant — public, personalized explore, and
network — rather than surfaced as an error (each variant still answers 200
with a list). -/
theorem unresolved_author_excluded_from_feeds (db : DB) (p : Post)
    (h : resolveUser db.users p.author = none) :
    p ∉ bodyPosts (getPublicPosts db) ∧
    p ∉ bodyPosts (getPersonalizedExploreFeed db) ∧
    ∀ userId connections,
      p ∉ bodyPosts (getNetworkPosts db userId connections) := by
  have key : ∀ found : List Post, p ∉ feedPipeline db found := by
    intro found hmem
    have hf := (List.mem_filter.mp hmem).2
    rw [h] at hf
    simp at hf
  exact ⟨key db.posts, key db.posts, fun _ connections => key _⟩

/-- Witness for C9: post 0 references author 99, who is not among the
registered users; neither the public feed nor the network feed of user 1
(whose connections include 99) lists it. -/
theorem unresolved_author_excluded_from_feeds_witness :
    { id := 0, author := 99, content := "x", image := none, sentiment := none,
      likes := [], comments := [], createdAt := 0 : Post } ∉
      bodyPosts (getPublicPosts
        { posts := [{ id := 0, author := 99, content := "x", image := none,
                      sentiment := none, likes := [], comments := [],
                      createdAt := 0 }],
          users := [1, 2], notifications := [], assets := [] }) ∧
    { id := 0, author := 99, content := "x", image := none, sentiment := none,
      likes := [], comments := [], createdAt := 0 : Post } ∉
      bodyPosts (getNetworkPosts
        { posts := [{ id := 0, author := 99, content := "x", image := none,
                      sentiment := none, likes := [], comments := [],
                      createdAt := 0 }],
          users := [1, 2], notifications := [], assets := [] } 1 [2, 99]) := by
  have h := unresolved_author_excluded_from_feeds
    { posts := [{ id := 0, author := 99, content := "x", image := none,
                  sentiment := none, likes := [], comments := [],
                  createdAt := 0 }],
      users := [1, 2], notifications := [], assets := [] }
    { id := 0, author := 99, content := "x", image := none, sentiment := none,
      likes := [], comments := [], createdAt := 0 }
    (by decide)
  exact ⟨h.1, h.2.2 1 [2, 99]⟩
